import Mathlib

/-!
Verification development for the SOMA order-intake bot (`src/app.py`).

The file shallowly embeds the conversation state machine of the bot:
its validators (`valid_phone`, `clean_int`), the per-user session data
(`context.user_data`: the order draft dictionary and the staged
`current_item`), the per-state handlers (`order_start`, `ask_phone`,
`ask_item`, `item_chosen`, `confirm`, `ask_more`, `finalize`,
`delivery_method_chosen`, `delivery_address_received`,
`_save_and_finish`, `cancel`) and the dispatch of events to handlers by
conversation state, as wired in `build_telegram_app`.

Modelling conventions:
  * Strings are Lean `String`s / `List Char`; Python character classes
    (`str.strip`, regex `\d`, `\s`, `str.lower`, `int()` digits) are
    modelled on their ASCII / Latin-1 fragment, which covers every
    character the handlers compare against and every input used below.
  * Python floats only ever hold values obtained from the integer prices
    in `PRICE_MAP` (or the 0.0 default) multiplied by `int` quantities
    and summed; all such values are integers, exactly representable for
    every magnitude arising below, so money is modelled as `Int` and the
    `:.2f` rendering of such a float as `fmt2`.
  * The Telegram / Google-Sheets transports are abstracted: an inbound
    event is a text message, a button callback, the `/order` command or
    the `/cancel` command; the Order Sink (`ws.append_row` inside
    `_save_and_finish`, plus `get_worksheet`) is a parameter that may
    raise at any call, as is a gateway failure inside `item_chosen`'s
    `try` block.  Replies sent to the user are collected as strings.
  * A Python `dict` key that may be absent is an `Option` field; an
    indexing access `o["k"]` on an absent key raises, which the
    dispatcher-level `on_error` converts into the generic error reply
    with the conversation state left unchanged, and which inside the
    `try` of `_save_and_finish` is caught by its own `except`.
-/

namespace Soma

/-- Latin-1 fragment of Python's whitespace (`str.strip`, regex `\s`):
space, tab, newline, carriage return, vertical tab, form feed, the file
separators 28-31, next-line 133 and no-break space 160. -/
def pyIsSpace (c : Char) : Bool :=
  c.toNat == 32 || c.toNat == 9 || c.toNat == 10 || c.toNat == 13 ||
    c.toNat == 11 || c.toNat == 12 || (28 ≤ c.toNat && c.toNat ≤ 31) ||
    c.toNat == 133 || c.toNat == 160

/-- ASCII fragment of Python's `\d` / `int()` digits: the characters 0-9. -/
def pyIsDigit (c : Char) : Bool :=
  48 ≤ c.toNat && c.toNat ≤ 57

/-- Python `str.strip()` on a character list: drop whitespace from both ends. -/
def stripL (l : List Char) : List Char :=
  ((l.dropWhile pyIsSpace).reverse.dropWhile pyIsSpace).reverse

/-- Python `s.strip()`. -/
def pyStrip (s : String) : String := String.mk (stripL s.data)

/-- The character class `[\d\s\-]` of `PHONE_RE`. -/
def phoneClass (c : Char) : Bool := pyIsDigit c || pyIsSpace c || c == '-'

/-- The part `\d[\d\s\-]{6,}$` of `PHONE_RE`: a digit, then at least six
further class characters running to the end of the string. -/
def phoneTail : List Char → Bool
  | [] => false
  | c :: rest => pyIsDigit c && decide (6 ≤ rest.length) && rest.all phoneClass

/-- `PHONE_RE = ^\+?\d[\d\s\-]{6,}$` matched against a whole string: the
optional leading `+` is consumed when present (a `+` can never match `\d`,
so the regex has no other parse). -/
def phoneRegexMatch (l : List Char) : Bool :=
  match l with
  | [] => phoneTail []
  | c :: rest => if c == '+' then phoneTail rest else phoneTail (c :: rest)

/-- `valid_phone` from src/app.py: `bool(PHONE_RE.match(s.strip()))`. -/
def valid_phone (s : String) : Bool := phoneRegexMatch (stripL s.data)

/-- Decimal value of the digit character `c`. -/
def digitVal (c : Char) : Nat := c.toNat - 48

/-- Continuation of a Python `int()` literal after its first digit: further
digits, with single underscores allowed between two digits (never leading,
trailing or doubled), accumulating the value. -/
def digitsRun : Nat → List Char → Option Nat
  | acc, [] => some acc
  | acc, c :: rest =>
    if c == '_' then
      match rest with
      | [] => none
      | c2 :: rest2 =>
        if pyIsDigit c2 then digitsRun (acc * 10 + digitVal c2) rest2 else none
    else if pyIsDigit c then digitsRun (acc * 10 + digitVal c) rest else none

/-- An unsigned Python `int()` literal body: at least one digit, then
`digitsRun`. -/
def pyUnsigned : List Char → Option Nat
  | [] => none
  | c :: rest => if pyIsDigit c then digitsRun (digitVal c) rest else none

/-- Python `int(text)` on a base-10 string: strips whitespace, takes an
optional sign, then an unsigned literal body; `none` when `int` raises. -/
def pyIntOfList (l : List Char) : Option Int :=
  match stripL l with
  | [] => none
  | c :: rest =>
    if c == '+' then (pyUnsigned rest).map (fun n => (n : Int))
    else if c == '-' then (pyUnsigned rest).map (fun n => -(n : Int))
    else (pyUnsigned (c :: rest)).map (fun n => (n : Int))

/-- `clean_int` from src/app.py: `(True, int(txt))` on success, else
`(False, None)`, modelled as an `Option Int`. -/
def clean_int (s : String) : Option Int := pyIntOfList s.data

/-- The quantity guard of the `confirm` handler, the spec's
`parse_quantity`: `ok, qty = clean_int(update.message.text.strip())` then
`if not ok or qty <= 0` re-prompts; a positive parsed value passes. -/
def parse_quantity (s : String) : Option Int :=
  match clean_int (pyStrip s) with
  | some q => if q ≤ 0 then none else some q
  | none => none

/-- Positional base-10 value of a digit string. -/
def litVal (l : List Char) : Nat := l.foldl (fun a c => a * 10 + digitVal c) 0

/-- `PRICE_MAP` from src/app.py. -/
def PRICE_MAP : List (String × Int) :=
  [("Cedar Veil", 79), ("Musk Reverie", 79), ("Mythos Blanc", 79)]

/-- `float(PRICE_MAP.get(item, 0.0))` in `item_chosen`: catalog price of a
token, 0 for a token not in the catalog. -/
def priceOf (tok : String) : Int := (PRICE_MAP.lookup tok).getD 0

/-- The `:.2f` rendering of a Python float holding the integer `n`. -/
def fmt2 (n : Int) : String := toString n ++ ".00"

/-- ASCII fragment of Python `str.lower()`. -/
def asciiLower (s : String) : String := String.mk (s.data.map Char.toLower)

/-- The staged `current_item` dict of `item_chosen`: name and unit price. -/
structure Item where
  name : String
  price : Int
deriving DecidableEq, Repr

/-- A line item as appended by `confirm`: the staged item plus quantity. -/
structure ItemQ where
  name : String
  price : Int
  quantity : Int
deriving DecidableEq, Repr

/-- The `context.user_data["order"]` dict.  `order_id`, `timestamp_utc`,
`telegram_username` and `items` are set at creation in `order_start`; the
other keys appear later, so they are `Option`s (`none` = key absent). -/
structure OrderDraft where
  order_id : String
  timestamp_utc : String
  telegram_username : String
  customer_name : Option String
  phone : Option String
  items : List ItemQ
  delivery_method : Option String
  delivery_address : Option String
deriving DecidableEq, Repr

/-- The per-user `context.user_data`: the order draft (absent before the
first `/order`) and the staged `current_item` (absent or `None` are both
falsy for the `if not cur` guard in `confirm`, so one `none` models both). -/
structure UserData where
  order : Option OrderDraft
  current_item : Option Item
deriving DecidableEq, Repr

/-- The conversation states of the `ConversationHandler`, plus `END` for
`ConversationHandler.END` (conversation over / not started). -/
inductive ConvState
  | ASK_NAME | ASK_PHONE | ASK_ITEM | ASK_QTY | ASK_MORE | CONFIRM
  | ASK_DELIVERY_METHOD | ASK_DELIVERY_ADDRESS | END
deriving DecidableEq, Repr

/-- One cell of a sheet row appended by `_save_and_finish`. -/
inductive Cell
  | str (s : String)
  | int (n : Int)
deriving DecidableEq, Repr

/-- One row passed to `ws.append_row`. -/
abbrev Row := List Cell

/-- The outcome of one handler invocation: the updated `user_data`, the
replies sent to the user, the returned conversation state, and the rows
actually written to the Order Sink during the invocation. -/
structure StepOut where
  ud : UserData
  replies : List String
  next : ConvState
  written : List Row
deriving DecidableEq, Repr

/-- Environment failures outside the state machine's control:
`gatewayFail` makes the Telegram calls at the top of `item_chosen`'s `try`
raise; `wsErr` makes `get_worksheet` raise with that message; `sink j`
makes the `j`-th `ws.append_row` call of one `_save_and_finish` raise. -/
structure World where
  gatewayFail : Bool
  wsErr : Option String
  sink : Nat → Option String

/-- Reply sent by the dispatcher-level `on_error` when a handler raises. -/
def dispatchErrMsg : String := "⚠️ An error occurred. Please try again."

/-- The failure reply of `_save_and_finish`: note it interpolates the
exception text, not the order id. -/
def failMsg (e : String) : String := "❌ Failed to save your order. Error: " ++ e

/-- The success reply of `_save_and_finish`. -/
def okMsg (oid : String) : String := "✅ Order placed! ID: " ++ oid

/-- `str(KeyError("customer_name"))`, the text rendered into `failMsg`
when `o["customer_name"]` is absent inside the `try` (an apostrophe, the
key, an apostrophe). -/
def keyErrCustomerName : String :=
  String.mk [Char.ofNat 39] ++ "customer_name" ++ String.mk [Char.ofNat 39]

/-- `total = sum(i["price"] * i["quantity"] for i in items)`. -/
def sumTotal (items : List ItemQ) : Int :=
  (items.map (fun i => i.price * i.quantity)).sum

/-- The row `_save_and_finish` builds for line item `i` of draft `o` whose
`customer_name` is `nm` — the fixed 11-cell column order of the sheet
(absent `phone` / `delivery_method` / `delivery_address` default to `""`
via `o.get`, `status` is the literal `"NEW"`). -/
def rowOf (o : OrderDraft) (nm : String) (i : ItemQ) : Row :=
  [Cell.str o.order_id, Cell.str o.timestamp_utc, Cell.str o.telegram_username,
   Cell.str nm, Cell.str (o.phone.getD ""), Cell.str (o.delivery_method.getD ""),
   Cell.str (o.delivery_address.getD ""), Cell.str i.name, Cell.int i.price,
   Cell.int i.quantity, Cell.str "NEW"]

/-- The `for i in o["items"]: ws.append_row(...)` loop: append rows in
order starting at call index `j`; on the first raising call, stop with the
rows already written and the error. -/
def runSinkAux (sink : Nat → Option String) : Nat → List Row → List Row × Option String
  | _, [] => ([], none)
  | j, r :: rs =>
    match sink j with
    | some e => ([], some e)
    | none =>
      let p := runSinkAux sink (j + 1) rs
      (r :: p.1, p.2)

/-- `_save_and_finish` from src/app.py: write one row per item, reply with
success or the caught failure, end the conversation.  `cur` is the state
the conversation was in (kept when the `o = user_data["order"]` access
itself raises, which happens before the `try`). -/
def saveAndFinish (w : World) (cur : ConvState) (ud : UserData) : StepOut :=
  match ud.order with
  | none => ⟨ud, [dispatchErrMsg], cur, []⟩
  | some o =>
    match w.wsErr with
    | some e => ⟨ud, [failMsg e], ConvState.END, []⟩
    | none =>
      match o.customer_name with
      | none =>
        if o.items.isEmpty then ⟨ud, [okMsg o.order_id], ConvState.END, []⟩
        else ⟨ud, [failMsg keyErrCustomerName], ConvState.END, []⟩
      | some nm =>
        let p := runSinkAux w.sink 0 (o.items.map (rowOf o nm))
        match p.2 with
        | some e => ⟨ud, [failMsg e], ConvState.END, p.1⟩
        | none => ⟨ud, [okMsg o.order_id], ConvState.END, p.1⟩

/-- `order_start`: allocate a fresh draft (overwriting any previous one;
`current_item` is not touched), prompt for the customer name. -/
def order_start (oid ts user : String) (ud : UserData) : StepOut :=
  ⟨⟨some ⟨oid, ts, user, none, none, [], none, none⟩, ud.current_item⟩,
   ["Customer name?"], ConvState.ASK_NAME, []⟩

/-- `ask_phone` (the ASK_NAME handler): store the stripped text as
`customer_name` — with no emptiness check — and prompt for the phone. -/
def ask_phone (t : String) (ud : UserData) : StepOut :=
  match ud.order with
  | none => ⟨ud, [dispatchErrMsg], ConvState.ASK_NAME, []⟩
  | some o =>
    ⟨⟨some { o with customer_name := some (pyStrip t) }, ud.current_item⟩,
     ["Phone number? (e.g., +65 9123 4567)"], ConvState.ASK_PHONE, []⟩

/-- `ask_item` (the ASK_PHONE handler): re-prompt on an invalid phone,
else store it and show the perfume keyboard. -/
def ask_item (t : String) (ud : UserData) : StepOut :=
  let phone := pyStrip t
  if !(valid_phone phone) then
    ⟨ud, ["Please enter a valid phone number (e.g., +65 9123 4567)."],
     ConvState.ASK_PHONE, []⟩
  else
    match ud.order with
    | none => ⟨ud, [dispatchErrMsg], ConvState.ASK_PHONE, []⟩
    | some o =>
      ⟨⟨some { o with phone := some phone }, ud.current_item⟩,
       ["Choose your perfume:"], ConvState.ASK_ITEM, []⟩

/-- `item_chosen` (the ASK_ITEM handler): inside the `try`, stage the
selected token with `float(PRICE_MAP.get(item, 0.0))` — an unknown token
is staged with price 0, it does not raise — and ask for the quantity; the
`except` branch (reached only when a gateway call raises) apologises and
ends the conversation. -/
def item_chosen (w : World) (tok : String) (ud : UserData) : StepOut :=
  if w.gatewayFail then
    ⟨ud, ["Sorry, something went wrong selecting the item. Please send /order to try again."],
     ConvState.END, []⟩
  else
    ⟨⟨ud.order, some ⟨tok, priceOf tok⟩⟩,
     ["Selected: " ++ tok ++ "\nUnit price: " ++ fmt2 (priceOf tok) ++ "\n\nQuantity? (e.g., 1)"],
     ConvState.ASK_QTY, []⟩

/-- `confirm` (the ASK_QTY handler): re-prompt unless the stripped text
parses to a positive int; with no staged item, ask to choose a perfume
first (back to ASK_ITEM, nothing appended); otherwise append the staged
item with the quantity, reset `current_item`, and show the running
total recomputed over all items. -/
def confirm (t : String) (ud : UserData) : StepOut :=
  match clean_int (pyStrip t) with
  | none =>
    ⟨ud, ["Please enter a valid quantity (whole number, e.g., 1)."], ConvState.ASK_QTY, []⟩
  | some qty =>
    if qty ≤ 0 then
      ⟨ud, ["Please enter a valid quantity (whole number, e.g., 1)."], ConvState.ASK_QTY, []⟩
    else
      match ud.current_item with
      | none => ⟨ud, ["Please choose a perfume first."], ConvState.ASK_ITEM, []⟩
      | some cur =>
        match ud.order with
        | none => ⟨ud, [dispatchErrMsg], ConvState.ASK_QTY, []⟩
        | some o =>
          let it : ItemQ := ⟨cur.name, cur.price, qty⟩
          let items2 := o.items ++ [it]
          ⟨⟨some { o with items := items2 }, none⟩,
           ["Added: " ++ it.name ++ " × " ++ toString qty ++ " = " ++ fmt2 (it.price * qty) ++
              "\nCurrent total: " ++ fmt2 (sumTotal items2) ++ "\n\nAdd another perfume?"],
           ConvState.ASK_MORE, []⟩

/-- One bullet line of the CONFIRM summary. -/
def summaryLine (i : ItemQ) : String :=
  "• " ++ i.name ++ " × " ++ toString i.quantity ++ " @ " ++ fmt2 i.price ++
    " = " ++ fmt2 (i.price * i.quantity)

/-- The CONFIRM summary built by `ask_more`: name, phone, one line per
item, and the grand total recomputed from the stored line items. -/
def summaryText (nm ph : String) (items : List ItemQ) : String :=
  "Please confirm your order:\n• Name: " ++ nm ++ "\n• Phone: " ++ ph ++ "\n" ++
    String.intercalate "\n" (items.map summaryLine) ++
    "\n\nTotal: " ++ fmt2 (sumTotal items) ++ "\n\nReply YES to confirm or NO to cancel."

/-- `ask_more` (the ASK_MORE handler): `more_yes` shows the perfume
keyboard again; any other callback data builds the final summary (the
accesses `o["customer_name"]` / `o["phone"]` raise when absent). -/
def ask_more (d : String) (ud : UserData) : StepOut :=
  if d == "more_yes" then ⟨ud, ["Choose your perfume:"], ConvState.ASK_ITEM, []⟩
  else
    match ud.order with
    | none => ⟨ud, [dispatchErrMsg], ConvState.ASK_MORE, []⟩
    | some o =>
      match o.customer_name, o.phone with
      | some nm, some ph => ⟨ud, [summaryText nm ph o.items], ConvState.CONFIRM, []⟩
      | _, _ => ⟨ud, [dispatchErrMsg], ConvState.ASK_MORE, []⟩

/-- `finalize` (the CONFIRM handler): only yes/y/no/n (case-insensitive,
stripped) are accepted; no/n cancels — ending the conversation with the
draft left in `user_data` — and yes/y asks for the delivery method. -/
def finalize (t : String) (ud : UserData) : StepOut :=
  let reply := asciiLower (pyStrip t)
  if reply == "yes" || reply == "y" || reply == "no" || reply == "n" then
    if reply == "no" || reply == "n" then
      ⟨ud, ["Order cancelled."], ConvState.END, []⟩
    else
      ⟨ud, ["How would you like to receive your order?"], ConvState.ASK_DELIVERY_METHOD, []⟩
  else ⟨ud, ["Please reply YES to confirm or NO to cancel."], ConvState.CONFIRM, []⟩

/-- `delivery_method_chosen` (the ASK_DELIVERY_METHOD handler):
`DELIVERY_SELF` stores method `"SELF"` with an empty address and saves at
once (the address prompt is never shown); `DELIVERY_SHIP` stores
`"DELIVER"` and asks for the address; anything else re-prompts. -/
def delivery_method_chosen (w : World) (d : String) (ud : UserData) : StepOut :=
  if d == "DELIVERY_SELF" then
    match ud.order with
    | none => ⟨ud, [dispatchErrMsg], ConvState.ASK_DELIVERY_METHOD, []⟩
    | some o =>
      saveAndFinish w ConvState.ASK_DELIVERY_METHOD
        ⟨some { o with delivery_method := some "SELF", delivery_address := some "" },
         ud.current_item⟩
  else if d == "DELIVERY_SHIP" then
    match ud.order with
    | none => ⟨ud, [dispatchErrMsg], ConvState.ASK_DELIVERY_METHOD, []⟩
    | some o =>
      ⟨⟨some { o with delivery_method := some "DELIVER" }, ud.current_item⟩,
       ["Please enter your delivery address:"], ConvState.ASK_DELIVERY_ADDRESS, []⟩
  else ⟨ud, ["Please choose a delivery option."], ConvState.ASK_DELIVERY_METHOD, []⟩

/-- `delivery_address_received` (the ASK_DELIVERY_ADDRESS handler):
re-prompt on an empty stripped address, else store it and save. -/
def delivery_address_received (w : World) (t : String) (ud : UserData) : StepOut :=
  let addr := pyStrip t
  if addr == "" then
    ⟨ud, ["Please enter a valid delivery address:"], ConvState.ASK_DELIVERY_ADDRESS, []⟩
  else
    match ud.order with
    | none => ⟨ud, [dispatchErrMsg], ConvState.ASK_DELIVERY_ADDRESS, []⟩
    | some o =>
      saveAndFinish w ConvState.ASK_DELIVERY_ADDRESS
        ⟨some { o with delivery_address := some addr }, ud.current_item⟩

/-- The `cancel` handler (`/cancel`, registered globally and as the
conversation fallback): acknowledge and end; `user_data` is not touched,
so the draft dict stays in the session until the next `/order`. -/
def cancel (ud : UserData) : StepOut :=
  ⟨ud, ["Cancelled. You can start again with /order."], ConvState.END, []⟩

/-- An inbound event for one user: a text message, a button callback, the
`/order` command (carrying the fresh draft's generated id, timestamp and
requester handle) or the `/cancel` command. -/
inductive Event
  | msg (t : String)
  | cb (d : String)
  | cmdOrder (oid ts user : String)
  | cmdCancel

/-- Dispatch of one event in conversation state `s`, as wired in
`build_telegram_app`: `/cancel` and `/order` act from every state
(`allow_reentry=True`); a text message goes to the current state's
`MessageHandler` and a callback to its `CallbackQueryHandler`; an event
the current state has no handler for changes nothing. -/
def step (w : World) (s : ConvState) (e : Event) (ud : UserData) : StepOut :=
  match e with
  | Event.cmdCancel => cancel ud
  | Event.cmdOrder oid ts user => order_start oid ts user ud
  | Event.msg t =>
    match s with
    | ConvState.ASK_NAME => ask_phone t ud
    | ConvState.ASK_PHONE => ask_item t ud
    | ConvState.ASK_QTY => confirm t ud
    | ConvState.CONFIRM => finalize t ud
    | ConvState.ASK_DELIVERY_ADDRESS => delivery_address_received w t ud
    | _ => ⟨ud, [], s, []⟩
  | Event.cb d =>
    match s with
    | ConvState.ASK_ITEM => item_chosen w d ud
    | ConvState.ASK_MORE => ask_more d ud
    | ConvState.ASK_DELIVERY_METHOD => delivery_method_chosen w d ud
    | _ => ⟨ud, [], s, []⟩

/-- Accumulated outcome of a sequence of events. -/
structure RunOut where
  s : ConvState
  ud : UserData
  replies : List String
  written : List Row
deriving DecidableEq, Repr

/-- Process a list of events in arrival order, accumulating replies and
written rows. -/
def runEvents (w : World) : ConvState → UserData → List Event → RunOut
  | s, ud, [] => ⟨s, ud, [], []⟩
  | s, ud, e :: es =>
    let o := step w s e ud
    let r := runEvents w o.next o.ud es
    ⟨r.s, r.ud, o.replies ++ r.replies, o.written ++ r.written⟩

/-! ### Spec-side definitions for claim C5

`claimPhonePattern` renders claim C5's pattern exactly as worded: the 6+
further characters must each be a digit, the space character, or a
hyphen.  `specPhoneProp` is the amended wording, with the space character
widened to Python whitespace (`\s`), to be compared with `valid_phone`. -/

/-- Claim C5's class read literally: digit, the space character, hyphen. -/
def claimClass (c : Char) : Bool := pyIsDigit c || c == ' ' || c == '-'

/-- Modelled from claim C5's words: after trimming, an optional leading
`+`, at least one digit, then six or more characters that are each a
digit, a space, or a hyphen. -/
def claimPhonePattern (s : String) : Bool :=
  match stripL s.data with
  | [] => false
  | c :: rest =>
    if c == '+' then
      match rest with
      | [] => false
      | d :: rest2 => pyIsDigit d && decide (6 ≤ rest2.length) && rest2.all claimClass
    else pyIsDigit c && decide (6 ≤ rest.length) && rest.all claimClass

/-- The amended C5 pattern: as the claim words it, but with "space"
widened to any Python whitespace character (the regex class `\s`). -/
def specPhoneProp (s : String) : Prop :=
  ∃ d rest, (stripL s.data = '+' :: d :: rest ∨ stripL s.data = d :: rest) ∧
    pyIsDigit d = true ∧ 6 ≤ rest.length ∧
    ∀ c ∈ rest, pyIsDigit c = true ∨ pyIsSpace c = true ∨ c = '-'

/-! ### Supporting lemmas -/

lemma pyIsDigit_not_space {c : Char} (h : pyIsDigit c = true) : pyIsSpace c = false := by
  simp only [pyIsDigit, Bool.and_eq_true, decide_eq_true_eq] at h
  simp only [pyIsSpace, Bool.or_eq_false_iff, Bool.and_eq_false_iff,
    beq_eq_false_iff_ne, ne_eq, decide_eq_false_iff_not, not_le]
  omega

lemma pyIsDigit_ne_plus {c : Char} (h : pyIsDigit c = true) : (c == '+') = false := by
  refine beq_eq_false_iff_ne.mpr ?_
  intro e
  subst e
  exact absurd h (by decide)

lemma pyIsDigit_ne_minus {c : Char} (h : pyIsDigit c = true) : (c == '-') = false := by
  refine beq_eq_false_iff_ne.mpr ?_
  intro e
  subst e
  exact absurd h (by decide)

lemma pyIsDigit_ne_underscore {c : Char} (h : pyIsDigit c = true) : (c == '_') = false := by
  refine beq_eq_false_iff_ne.mpr ?_
  intro e
  subst e
  exact absurd h (by decide)

lemma dropWhile_eq_self_of_not {p : Char → Bool} :
    ∀ l : List Char, (∀ c ∈ l, p c = false) → l.dropWhile p = l := by
  intro l h
  cases l with
  | nil => rfl
  | cons a t => simp [List.dropWhile_cons, h a (by simp)]

lemma stripL_of_digits {l : List Char} (h : ∀ c ∈ l, pyIsDigit c = true) :
    stripL l = l := by
  have h1 : ∀ c ∈ l, pyIsSpace c = false := fun c hc => pyIsDigit_not_space (h c hc)
  unfold stripL
  rw [dropWhile_eq_self_of_not l h1,
    dropWhile_eq_self_of_not l.reverse (fun c hc => h1 c (List.mem_reverse.mp hc)),
    List.reverse_reverse]

lemma stripL_eq_nil_iff (l : List Char) :
    stripL l = [] ↔ ∀ c ∈ l, pyIsSpace c = true := by
  unfold stripL
  rw [List.reverse_eq_nil_iff, List.dropWhile_eq_nil_iff]
  constructor
  · intro h c hc
    rw [← List.takeWhile_append_dropWhile (p := pyIsSpace) (l := l)] at hc
    rcases List.mem_append.mp hc with h1 | h1
    · exact List.mem_takeWhile_imp h1
    · exact h c (List.mem_reverse.mpr h1)
  · intro h c hc
    exact h c ((List.dropWhile_sublist (l := l) (p := pyIsSpace)).subset
      (List.mem_reverse.mp hc))

lemma digitsRun_digits :
    ∀ (l : List Char) (acc : Nat), (∀ c ∈ l, pyIsDigit c = true) →
      digitsRun acc l = some (l.foldl (fun a c => a * 10 + digitVal c) acc) := by
  intro l
  induction l with
  | nil => intro acc _; simp [digitsRun]
  | cons c t ih =>
    intro acc h
    have hc : pyIsDigit c = true := h c (by simp)
    rw [List.foldl_cons, ← ih (acc * 10 + digitVal c) (fun d hd => h d (by simp [hd]))]
    rw [digitsRun.eq_def]
    simp [pyIsDigit_ne_underscore hc, hc]

lemma pyUnsigned_digits {l : List Char} (hne : l ≠ []) (h : ∀ c ∈ l, pyIsDigit c = true) :
    pyUnsigned l = some (litVal l) := by
  cases l with
  | nil => exact absurd rfl hne
  | cons c t =>
    have hc : pyIsDigit c = true := h c (by simp)
    simp only [pyUnsigned, hc, if_true]
    rw [digitsRun_digits t (digitVal c) (fun d hd => h d (by simp [hd]))]
    simp [litVal]

lemma pyIntOfList_digits {l : List Char} (hne : l ≠ []) (h : ∀ c ∈ l, pyIsDigit c = true) :
    pyIntOfList l = some ((litVal l : Nat) : Int) := by
  unfold pyIntOfList
  rw [stripL_of_digits h]
  cases l with
  | nil => exact absurd rfl hne
  | cons c t =>
    have hc : pyIsDigit c = true := h c (by simp)
    simp only [pyIsDigit_ne_plus hc, Bool.false_eq_true, if_false, pyIsDigit_ne_minus hc]
    rw [pyUnsigned_digits (by simp) h]
    rfl

/-- Decimal digit list of `n`, built with explicit fuel so that it
computes by kernel reduction. -/
def natLitAux : Nat → Nat → List Char
  | 0, _ => []
  | fuel + 1, n =>
    if n < 10 then [Char.ofNat (48 + n)]
    else natLitAux fuel (n / 10) ++ [Char.ofNat (48 + n % 10)]

/-- Decimal literal of a natural number. -/
def natLit (n : Nat) : List Char := natLitAux (n + 1) n

lemma charDigit_toNat : ∀ k, k < 10 → (Char.ofNat (48 + k)).toNat = 48 + k := by
  intro k hk
  interval_cases k <;> decide

lemma charDigit_isDigit : ∀ k, k < 10 → pyIsDigit (Char.ofNat (48 + k)) = true := by
  intro k hk
  interval_cases k <;> decide

lemma digitVal_charDigit : ∀ k, k < 10 → digitVal (Char.ofNat (48 + k)) = k := by
  intro k hk
  interval_cases k <;> decide

lemma litVal_append_digit (xs : List Char) (c : Char) :
    litVal (xs ++ [c]) = litVal xs * 10 + digitVal c := by
  simp [litVal, List.foldl_append]

lemma natLitAux_spec : ∀ fuel n, n < fuel →
    (∀ c ∈ natLitAux fuel n, pyIsDigit c = true) ∧
      litVal (natLitAux fuel n) = n ∧ natLitAux fuel n ≠ [] := by
  intro fuel
  induction fuel with
  | zero => intro n h; omega
  | succ f ih =>
    intro n h
    by_cases h10 : n < 10
    · refine ⟨?_, ?_, ?_⟩
      · intro c hc
        simp only [natLitAux, h10, if_true, List.mem_singleton] at hc
        subst hc
        exact charDigit_isDigit n h10
      · simp only [natLitAux, h10, if_true, litVal, List.foldl_cons, List.foldl_nil]
        rw [digitVal_charDigit n h10]
        omega
      · simp [natLitAux, h10]
    · have hd1 : n / 10 < n := Nat.div_lt_self (by omega) (by omega)
      have hdiv : n / 10 < f := by omega
      obtain ⟨hd, hv, hne⟩ := ih (n / 10) hdiv
      refine ⟨?_, ?_, ?_⟩
      · intro c hc
        simp only [natLitAux, h10, if_false, List.mem_append, List.mem_singleton] at hc
        rcases hc with hc | hc
        · exact hd c hc
        · subst hc
          exact charDigit_isDigit (n % 10) (Nat.mod_lt n (by omega))
      · simp only [natLitAux, h10, if_false]
        rw [litVal_append_digit, hv, digitVal_charDigit (n % 10) (Nat.mod_lt n (by omega))]
        omega
      · simp [natLitAux, h10]

lemma natLit_spec (n : Nat) :
    (∀ c ∈ natLit n, pyIsDigit c = true) ∧ litVal (natLit n) = n ∧ natLit n ≠ [] :=
  natLitAux_spec (n + 1) n (Nat.lt_succ_self n)

lemma runSinkAux_all_ok (sink : Nat → Option String) (h : ∀ j, sink j = none) :
    ∀ (rows : List Row) (j : Nat), runSinkAux sink j rows = (rows, none) := by
  intro rows
  induction rows with
  | nil => intro j; rfl
  | cons r rs ih => intro j; simp [runSinkAux, h j, ih (j + 1)]

lemma runSinkAux_first_fail (sink : Nat → Option String) :
    ∀ (rows : List Row) (k j : Nat) (e : String),
      k < rows.length → (∀ i, i < k → sink (j + i) = none) → sink (j + k) = some e →
      runSinkAux sink j rows = (rows.take k, some e) := by
  intro rows
  induction rows with
  | nil => intro k j e hk _ _; simp at hk
  | cons r rs ih =>
    intro k j e hk hpre hfail
    cases k with
    | zero =>
      have h0 : sink j = some e := by simpa using hfail
      simp [runSinkAux, h0]
    | succ k2 =>
      have h0 : sink j = none := by simpa using hpre 0 (Nat.succ_pos k2)
      have hrec := ih k2 (j + 1) e (by simpa using hk)
        (fun i hi => by
          have := hpre (i + 1) (by omega)
          rwa [show j + (i + 1) = j + 1 + i by omega] at this)
        (by rwa [show j + (k2 + 1) = j + 1 + k2 by omega] at hfail)
      simp [runSinkAux, h0, hrec]

/-- `as` is a contiguous prefix of `bs`. -/
def isPrefixL : List Char → List Char → Bool
  | [], _ => true
  | _ :: _, [] => false
  | a :: as, b :: bs => a == b && isPrefixL as bs

/-- `n` occurs as a contiguous substring of the second list. -/
def isSubL (n : List Char) : List Char → Bool
  | [] => n.isEmpty
  | c :: t => isPrefixL n (c :: t) || isSubL n t

/-- The implicit per-row subtotal of a sheet row: unit price (column 8)
times quantity (column 9). -/
def subtotalOfRow (r : Row) : Int :=
  match r[8]?, r[9]? with
  | some (Cell.int p), some (Cell.int q) => p * q
  | _, _ => 0

/-- At finalization the per-row data recomputes to the same grand total
as the stored line items: the rows carry each item's own price and
quantity, no intermediate running total. -/
lemma rows_recompute (o : OrderDraft) (nm : String) :
    ((o.items.map (rowOf o nm)).map subtotalOfRow).sum = sumTotal o.items := by
  rw [List.map_map]
  rfl

/-! ### The cart-accumulation loop (claim C4) -/

/-- The quantity the `confirm` guard extracts from the quantity text of a
loop iteration (0 when it does not parse; the loop hypotheses require a
positive parse). -/
def qtyOf (p : String × String) : Int := (clean_int (pyStrip p.2)).getD 0

/-- The line item one loop iteration appends for the pair
`(selection token, quantity text)`. -/
def stagedItem (p : String × String) : ItemQ := ⟨p.1, priceOf p.1, qtyOf p⟩

/-- The events of running the cart loop once per pair: a selection
callback and a quantity message, with an `more_yes` callback between
consecutive iterations (the ASK_MORE → ASK_ITEM transition). -/
def cartEvents : List (String × String) → List Event
  | [] => []
  | [p] => [Event.cb p.1, Event.msg p.2]
  | p :: q :: rest => Event.cb p.1 :: Event.msg p.2 :: Event.cb "more_yes" :: cartEvents (q :: rest)

lemma item_chosen_ok (w : World) (hg : w.gatewayFail = false) (tok : String) (ud : UserData) :
    item_chosen w tok ud =
      ⟨⟨ud.order, some ⟨tok, priceOf tok⟩⟩,
       ["Selected: " ++ tok ++ "\nUnit price: " ++ fmt2 (priceOf tok) ++ "\n\nQuantity? (e.g., 1)"],
       ConvState.ASK_QTY, []⟩ := by
  simp [item_chosen, hg]

lemma confirm_success (t : String) (ud : UserData) (cur : Item) (o : OrderDraft) (q : Int)
    (hq : clean_int (pyStrip t) = some q) (hpos : 0 < q)
    (hcur : ud.current_item = some cur) (ho : ud.order = some o) :
    confirm t ud =
      ⟨⟨some { o with items := o.items ++ [⟨cur.name, cur.price, q⟩] }, none⟩,
       ["Added: " ++ cur.name ++ " × " ++ toString q ++ " = " ++ fmt2 (cur.price * q) ++
          "\nCurrent total: " ++ fmt2 (sumTotal (o.items ++ [⟨cur.name, cur.price, q⟩])) ++
          "\n\nAdd another perfume?"],
       ConvState.ASK_MORE, []⟩ := by
  simp [confirm, hq, hcur, ho, if_neg (not_le.mpr hpos)]

lemma cartLoop_run (w : World) (hg : w.gatewayFail = false) :
    ∀ (pairs : List (String × String)) (o : OrderDraft),
      (∀ p ∈ pairs, clean_int (pyStrip p.2) = some (qtyOf p) ∧ 0 < qtyOf p) →
      pairs ≠ [] →
      (runEvents w ConvState.ASK_ITEM ⟨some o, none⟩ (cartEvents pairs)).s = ConvState.ASK_MORE ∧
      (runEvents w ConvState.ASK_ITEM ⟨some o, none⟩ (cartEvents pairs)).ud =
        ⟨some { o with items := o.items ++ pairs.map stagedItem }, none⟩ ∧
      (runEvents w ConvState.ASK_ITEM ⟨some o, none⟩ (cartEvents pairs)).written = [] := by
  intro pairs
  induction pairs with
  | nil => intro o _ hne; exact absurd rfl hne
  | cons p rest ih =>
    intro o h _
    obtain ⟨hq, hpos⟩ := h p (by simp)
    cases rest with
    | nil =>
      simp only [cartEvents, runEvents, step]
      rw [item_chosen_ok w hg p.1 ⟨some o, none⟩]
      simp only [runEvents, step]
      rw [confirm_success p.2 ⟨some o, some ⟨p.1, priceOf p.1⟩⟩ ⟨p.1, priceOf p.1⟩ o
        (qtyOf p) hq hpos rfl rfl]
      simp [runEvents, stagedItem]
    | cons p2 rest2 =>
      obtain ⟨ih1, ih2, ih3⟩ :=
        ih { o with items := o.items ++ [⟨p.1, priceOf p.1, qtyOf p⟩] }
          (fun x hx => h x (by simp [hx])) (by simp)
      simp only [cartEvents, runEvents, step]
      rw [item_chosen_ok w hg p.1 ⟨some o, none⟩]
      simp only [runEvents, step]
      rw [confirm_success p.2 ⟨some o, some ⟨p.1, priceOf p.1⟩⟩ ⟨p.1, priceOf p.1⟩ o
        (qtyOf p) hq hpos rfl rfl]
      simp only [runEvents, step]
      rw [show ask_more "more_yes"
            ⟨some { o with items := o.items ++ [⟨p.1, priceOf p.1, qtyOf p⟩] }, none⟩ =
          ⟨⟨some { o with items := o.items ++ [⟨p.1, priceOf p.1, qtyOf p⟩] }, none⟩,
           ["Choose your perfume:"], ConvState.ASK_ITEM, []⟩ from by simp [ask_more]]
      refine ⟨by simpa using ih1, ?_, by simpa using ih3⟩
      simp only [List.map_cons, stagedItem]
      rw [show (runEvents w ConvState.ASK_ITEM
            ⟨some { o with items := o.items ++ [⟨p.1, priceOf p.1, qtyOf p⟩] }, none⟩
            (cartEvents (p2 :: rest2))).ud =
          ⟨some { o with items :=
              (o.items ++ [⟨p.1, priceOf p.1, qtyOf p⟩]) ++ (p2 :: rest2).map stagedItem },
           none⟩ from ih2]
      simp [stagedItem]

lemma phoneClass_iff (c : Char) :
    phoneClass c = true ↔ pyIsDigit c = true ∨ pyIsSpace c = true ∨ c = '-' := by
  simp [phoneClass, or_assoc]

lemma phoneTail_iff (l : List Char) :
    phoneTail l = true ↔
      ∃ d rest, l = d :: rest ∧ pyIsDigit d = true ∧ 6 ≤ rest.length ∧
        ∀ c ∈ rest, pyIsDigit c = true ∨ pyIsSpace c = true ∨ c = '-' := by
  cases l with
  | nil => simp [phoneTail]
  | cons d rest =>
    constructor
    · intro h
      simp only [phoneTail, Bool.and_eq_true, decide_eq_true_eq, List.all_eq_true] at h
      exact ⟨d, rest, rfl, h.1.1, h.1.2, fun c hc => (phoneClass_iff c).mp (h.2 c hc)⟩
    · rintro ⟨d2, rest2, he, hd, hlen, hall⟩
      obtain ⟨rfl, rfl⟩ : d = d2 ∧ rest = rest2 := by
        constructor <;> injection he
      simp only [phoneTail, Bool.and_eq_true, decide_eq_true_eq, List.all_eq_true]
      exact ⟨⟨hd, hlen⟩, fun c hc => (phoneClass_iff c).mpr (hall c hc)⟩

lemma phoneRegexMatch_iff (l : List Char) :
    phoneRegexMatch l = true ↔
      ∃ d rest, (l = '+' :: d :: rest ∨ l = d :: rest) ∧ pyIsDigit d = true ∧
        6 ≤ rest.length ∧ ∀ c ∈ rest, pyIsDigit c = true ∨ pyIsSpace c = true ∨ c = '-' := by
  cases l with
  | nil =>
    simp only [phoneRegexMatch, phoneTail]
    constructor
    · intro h; exact absurd h (by decide)
    · rintro ⟨d, rest, h1 | h1, _⟩ <;> exact absurd h1 (by simp)
  | cons c t =>
    by_cases hc : c = '+'
    · subst hc
      simp only [phoneRegexMatch, beq_self_eq_true, if_true]
      rw [phoneTail_iff]
      constructor
      · rintro ⟨d, rest, rfl, hd, hlen, hall⟩
        exact ⟨d, rest, Or.inl rfl, hd, hlen, hall⟩
      · rintro ⟨d, rest, h1 | h1, hd, hlen, hall⟩
        · injection h1 with h a
          subst a
          exact ⟨d, rest, rfl, hd, hlen, hall⟩
        · injection h1 with h a
          rw [← h] at hd
          exact absurd hd (by decide)
    · rw [phoneRegexMatch, if_neg (by simpa using hc), phoneTail_iff]
      constructor
      · rintro ⟨d, rest, he, hd, hlen, hall⟩
        exact ⟨d, rest, Or.inr he, hd, hlen, hall⟩
      · rintro ⟨d, rest, h1 | h1, hd, hlen, hall⟩
        · injection h1 with h a
          exact absurd h hc
        · exact ⟨d, rest, h1, hd, hlen, hall⟩

/-! ### Concrete fixtures used by closed theorems -/

/-- A world with no gateway and no sink failures. -/
def w0 : World := ⟨false, none, fun _ => none⟩

/-- A world whose very first `append_row` call raises with text `boom`. -/
def cexWorld : World := ⟨false, none, fun j => if j = 0 then some "boom" else none⟩

/-- A completed one-item draft ready for finalization. -/
def cexDraft : OrderDraft :=
  ⟨"ab12cd34", "2026-01-01T00:00:00Z", "u1", some "X", some "+65 9123 456",
   [⟨"Cedar Veil", 79, 1⟩], some "SELF", some ""⟩

/-- A draft as `order_start` creates it, name and phone not yet given. -/
def freshD : OrderDraft := ⟨"oid9", "ts9", "u9", none, none, [], none, none⟩

/-- A draft mid-conversation, in state ASK_ITEM with an empty cart. -/
def c1draft : OrderDraft :=
  ⟨"oid1", "ts1", "u1", some "Jane", some "+65 9123 4567", [], none, none⟩

/-- Selecting the unknown token `Bogus` in ASK_ITEM and then sending
quantity `1`. -/
def c1run : RunOut :=
  runEvents w0 ConvState.ASK_ITEM ⟨some c1draft, none⟩ [Event.cb "Bogus", Event.msg "1"]

/-- The end-to-end self-collect scenario of claim C3. -/
def c3events : List Event :=
  [Event.cmdOrder "ord1" "2026-01-01T00:00:00Z" "jane_tg",
   Event.msg "Jane Doe", Event.msg "+65 9123 4567",
   Event.cb "Cedar Veil", Event.msg "2", Event.cb "more_no",
   Event.msg "yes", Event.cb "DELIVERY_SELF"]

/-- Running the C3 scenario from an idle session. -/
def c3run : RunOut := runEvents w0 ConvState.END ⟨none, none⟩ c3events

/-- Cart-loop input of the C4 witness: two catalog items, quantities 2
and 3. -/
def c4pairs : List (String × String) := [("Cedar Veil", "2"), ("Mythos Blanc", "3")]

/-- Draft at the start of the C4 witness cart loop. -/
def c4draft : OrderDraft :=
  ⟨"o4", "ts4", "u4", some "Jane", some "+65 9123 4567", [], none, none⟩

/-! ### Claim C1 -/

/-- Claim C1, counterexample: `Bogus` is not in the catalog, yet the
selection is not aborted — the machine proceeds to ASK_QTY, ends the two
events in ASK_MORE, and the cart now holds a `Bogus` line item carrying
the fabricated unit price 0; no idle no-draft state is reached. -/
theorem C1_unknown_token_counterexample :
    PRICE_MAP.lookup "Bogus" = none ∧
    c1run.s = ConvState.ASK_MORE ∧
    c1run.ud.order = some { c1draft with items := [⟨"Bogus", 0, 1⟩] } := by
  decide

/-- Claim C1, amended: a selection token that is not in the catalog is
silently staged as `current_item` with unit price 0 (the
`PRICE_MAP.get(item, 0.0)` default) and the machine proceeds to ASK_QTY;
the generic apology that aborts to the idle no-conversation state is
produced only when a gateway call inside the handler raises, regardless
of the token. -/
theorem C1_unknown_token_staged (w : World) (tok : String) (ud : UserData)
    (hg : w.gatewayFail = false) (hc : PRICE_MAP.lookup tok = none) :
    step w ConvState.ASK_ITEM (Event.cb tok) ud =
      ⟨⟨ud.order, some ⟨tok, priceOf tok⟩⟩,
       ["Selected: " ++ tok ++ "\nUnit price: " ++ fmt2 (priceOf tok) ++
          "\n\nQuantity? (e.g., 1)"],
       ConvState.ASK_QTY, []⟩ ∧
    priceOf tok = 0 ∧
    (∀ (w2 : World) (ud2 : UserData), w2.gatewayFail = true →
      step w2 ConvState.ASK_ITEM (Event.cb tok) ud2 =
        ⟨ud2, ["Sorry, something went wrong selecting the item. Please send /order to try again."],
         ConvState.END, []⟩) := by
  refine ⟨?_, ?_, ?_⟩
  · exact item_chosen_ok w hg tok ud
  · simp [priceOf, hc]
  · intro w2 ud2 h2
    show item_chosen w2 tok ud2 = _
    simp [item_chosen, h2]

/-- Claim C1, witness: the amended theorem at the concrete unknown token
`Bogus`. -/
theorem C1_unknown_token_witness :
    step w0 ConvState.ASK_ITEM (Event.cb "Bogus") ⟨none, none⟩ =
      ⟨⟨none, some ⟨"Bogus", priceOf "Bogus"⟩⟩,
       ["Selected: " ++ "Bogus" ++ "\nUnit price: " ++ fmt2 (priceOf "Bogus") ++
          "\n\nQuantity? (e.g., 1)"],
       ConvState.ASK_QTY, []⟩ ∧
    priceOf "Bogus" = 0 :=
  ⟨(C1_unknown_token_staged w0 "Bogus" ⟨none, none⟩ rfl (by decide)).1,
   (C1_unknown_token_staged w0 "Bogus" ⟨none, none⟩ rfl (by decide)).2.1⟩

/-! ### Claim C2 -/

/-- Claim C2, counterexample: when the first sink append fails with
`boom`, the order id `ab12cd34` of the draft does not occur in the
failure notice — the notice carries the exception text instead; the
conversation still terminates. -/
theorem C2_sink_failure_counterexample :
    (saveAndFinish cexWorld ConvState.ASK_DELIVERY_METHOD ⟨some cexDraft, none⟩).replies =
      ["❌ Failed to save your order. Error: boom"] ∧
    isSubL cexDraft.order_id.data "❌ Failed to save your order. Error: boom".data = false ∧
    (saveAndFinish cexWorld ConvState.ASK_DELIVERY_METHOD ⟨some cexDraft, none⟩).next =
      ConvState.END := by
  decide

/-- Claim C2, amended: if the `k`-th sink append fails during
finalization, the error is caught and the user receives the failure
notice carrying the exception text (not the order id); the conversation
terminates, there is no retry, and the `k` rows written before the
failure remain written. -/
theorem C2_sink_failure_notice (w : World) (cur : ConvState) (ud : UserData)
    (o : OrderDraft) (nm e : String) (k : Nat)
    (hws : w.wsErr = none) (ho : ud.order = some o) (hnm : o.customer_name = some nm)
    (hk : k < o.items.length) (hpre : ∀ i, i < k → w.sink i = none)
    (hfail : w.sink k = some e) :
    saveAndFinish w cur ud =
      ⟨ud, ["❌ Failed to save your order. Error: " ++ e], ConvState.END,
       (o.items.take k).map (rowOf o nm)⟩ := by
  have hrun := runSinkAux_first_fail w.sink (o.items.map (rowOf o nm)) k 0 e
    (by simpa using hk) (by simpa using hpre) (by simpa using hfail)
  simp [saveAndFinish, ho, hws, hnm, hrun, failMsg, List.map_take]

/-- Claim C2, witness: the amended theorem at a concrete draft whose
first append fails. -/
theorem C2_sink_failure_witness :
    saveAndFinish cexWorld ConvState.ASK_DELIVERY_METHOD ⟨some cexDraft, none⟩ =
      ⟨⟨some cexDraft, none⟩, ["❌ Failed to save your order. Error: " ++ "boom"],
       ConvState.END, (cexDraft.items.take 0).map (rowOf cexDraft "X")⟩ :=
  C2_sink_failure_notice cexWorld ConvState.ASK_DELIVERY_METHOD ⟨some cexDraft, none⟩
    cexDraft "X" "boom" 0 rfl rfl rfl (by decide)
    (fun i hi => absurd hi (Nat.not_lt_zero i)) rfl

/-! ### Claim C3 -/

/-- Claim C3, counterexample: the self-collect end-to-end flow emits
exactly one record, but its delivery-method column holds `SELF`, not the
`SELF_COLLECT` the claim states. -/
theorem C3_self_collect_counterexample :
    c3run.written.map (fun r => r[5]?) = [some (Cell.str "SELF")] ∧
    Cell.str "SELF" ≠ Cell.str "SELF_COLLECT" := by
  decide

/-- Claim C3, amended: the flow start → name → valid phone →
`Cedar Veil` → `2` → checkout → `yes` → self-collect skips the address
prompt entirely and emits exactly one record with product `Cedar Veil`,
unit price 79, quantity 2, delivery method `"SELF"` (the literal the code
writes), empty delivery address and status `NEW`. -/
theorem C3_self_collect_flow :
    c3run.written =
      [[Cell.str "ord1", Cell.str "2026-01-01T00:00:00Z", Cell.str "jane_tg",
        Cell.str "Jane Doe", Cell.str "+65 9123 4567", Cell.str "SELF", Cell.str "",
        Cell.str "Cedar Veil", Cell.int 79, Cell.int 2, Cell.str "NEW"]] ∧
    c3run.s = ConvState.END ∧
    "Please enter your delivery address:" ∉ c3run.replies := by
  decide

/-! ### Claim C4 -/

/-- Claim C4 (confirmed): running the ASK_ITEM → ASK_QTY → ASK_MORE cart
loop once per pair — a catalog selection followed by a validly parsed
positive quantity — leaves exactly one line item per pair in the draft;
the grand total in the checkout summary is recomputed from the stored
line items and equals the sum of unit price times quantity over all of
them, and the per-row price/quantity data emitted at finalization
recomputes to the same total. -/
theorem C4_cart_loop (w : World) (pairs : List (String × String)) (o : OrderDraft)
    (nm ph : String)
    (hg : w.gatewayFail = false) (hne : pairs ≠ [])
    (hq : ∀ p ∈ pairs, clean_int (pyStrip p.2) = some (qtyOf p) ∧ 0 < qtyOf p)
    (hcat : ∀ p ∈ pairs, (PRICE_MAP.lookup p.1).isSome = true)
    (hitems : o.items = []) (hnm : o.customer_name = some nm) (hph : o.phone = some ph) :
    ∃ o2 : OrderDraft,
      (runEvents w ConvState.ASK_ITEM ⟨some o, none⟩ (cartEvents pairs)).ud.order = some o2 ∧
      o2.items = pairs.map stagedItem ∧
      o2.items.length = pairs.length ∧
      sumTotal o2.items = (pairs.map (fun p => priceOf p.1 * qtyOf p)).sum ∧
      ask_more "more_no" (runEvents w ConvState.ASK_ITEM ⟨some o, none⟩ (cartEvents pairs)).ud =
        ⟨(runEvents w ConvState.ASK_ITEM ⟨some o, none⟩ (cartEvents pairs)).ud,
         [summaryText nm ph o2.items], ConvState.CONFIRM, []⟩ ∧
      (∃ pre : String, summaryText nm ph o2.items =
        pre ++ "\n\nTotal: " ++ fmt2 (sumTotal o2.items) ++
          "\n\nReply YES to confirm or NO to cancel.") ∧
      ((o2.items.map (rowOf o2 nm)).map subtotalOfRow).sum = sumTotal o2.items := by
  obtain ⟨h1, h2, h3⟩ := cartLoop_run w hg pairs o hq hne
  refine ⟨{ o with items := o.items ++ pairs.map stagedItem }, by rw [h2], by simp [hitems],
    by simp [hitems], ?_, ?_, ?_, ?_⟩
  · simp only [hitems, List.nil_append, sumTotal, List.map_map]
    rfl
  · rw [h2]
    simp [ask_more, hnm, hph, hitems]
  · exact ⟨"Please confirm your order:\n• Name: " ++ nm ++ "\n• Phone: " ++ ph ++ "\n" ++
      String.intercalate "\n" (({ o with items := o.items ++ pairs.map stagedItem } :
        OrderDraft).items.map summaryLine), rfl⟩
  · exact rows_recompute _ nm

/-- Claim C4, witness: the theorem at a two-iteration loop (`Cedar Veil`
times 2 then `Mythos Blanc` times 3). -/
theorem C4_cart_loop_witness :
    ∃ o2 : OrderDraft,
      (runEvents w0 ConvState.ASK_ITEM ⟨some c4draft, none⟩ (cartEvents c4pairs)).ud.order =
        some o2 ∧
      o2.items = c4pairs.map stagedItem ∧
      o2.items.length = c4pairs.length ∧
      sumTotal o2.items = (c4pairs.map (fun p => priceOf p.1 * qtyOf p)).sum ∧
      ask_more "more_no"
          (runEvents w0 ConvState.ASK_ITEM ⟨some c4draft, none⟩ (cartEvents c4pairs)).ud =
        ⟨(runEvents w0 ConvState.ASK_ITEM ⟨some c4draft, none⟩ (cartEvents c4pairs)).ud,
         [summaryText "Jane" "+65 9123 4567" o2.items], ConvState.CONFIRM, []⟩ ∧
      (∃ pre : String, summaryText "Jane" "+65 9123 4567" o2.items =
        pre ++ "\n\nTotal: " ++ fmt2 (sumTotal o2.items) ++
          "\n\nReply YES to confirm or NO to cancel.") ∧
      ((o2.items.map (rowOf o2 "Jane")).map subtotalOfRow).sum = sumTotal o2.items :=
  C4_cart_loop w0 c4pairs c4draft "Jane" "+65 9123 4567" rfl (by decide) (by decide)
    (by decide) rfl rfl rfl

/-! ### Claim C5 -/

/-- Claim C5, counterexample: `"0\t\t\t\t\t\t0"` is accepted by
`valid_phone` although its tail characters are tabs — not digits, spaces
or hyphens — so `valid_phone` does not return true exactly for the
claim's pattern. -/
theorem C5_phone_pattern_counterexample :
    valid_phone "0\t\t\t\t\t\t0" = true ∧
    claimPhonePattern "0\t\t\t\t\t\t0" = false := by
  decide

/-- Claim C5, amended: `valid_phone` returns true exactly for the strings
which, after trimming, consist of an optional leading `+`, one digit, and
six or more further characters each of which is a digit, a whitespace
character (the regex class `\s`, not only the space character), or a
hyphen. -/
theorem C5_phone_pattern (s : String) : valid_phone s = true ↔ specPhoneProp s :=
  phoneRegexMatch_iff (stripL s.data)

/-! ### Claim C6 -/

/-- Claim C6 (confirmed): the quantity guard trims and parses base-10;
it fails on every unparseable string and on every parse whose value is at
most 0; on a parse of a positive value it returns exactly that value; a
plain positive decimal literal always succeeds with its positional value,
and every positive natural number's literal is accepted — no upper bound
is enforced. -/
theorem C6_parse_quantity :
    (∀ s : String, clean_int (pyStrip s) = none → parse_quantity s = none) ∧
    (∀ (s : String) (q : Int), clean_int (pyStrip s) = some q → q ≤ 0 →
      parse_quantity s = none) ∧
    (∀ (s : String) (q : Int), clean_int (pyStrip s) = some q → 0 < q →
      parse_quantity s = some q) ∧
    (∀ l : List Char, l ≠ [] → (∀ c ∈ l, pyIsDigit c = true) → 0 < litVal l →
      parse_quantity (String.mk l) = some ((litVal l : Nat) : Int)) ∧
    (∀ n : Nat, 0 < n → parse_quantity (String.mk (natLit n)) = some ((n : Nat) : Int)) := by
  have h1 : ∀ s : String, clean_int (pyStrip s) = none → parse_quantity s = none := by
    intro s h
    unfold parse_quantity
    rw [h]
  have h2 : ∀ (s : String) (q : Int), clean_int (pyStrip s) = some q → q ≤ 0 →
      parse_quantity s = none := by
    intro s q h hTo
    unfold parse_quantity
    rw [h]
    show (if q ≤ 0 then none else some q) = none
    rw [if_pos hTo]
  have h3 : ∀ (s : String) (q : Int), clean_int (pyStrip s) = some q → 0 < q →
      parse_quantity s = some q := by
    intro s q h hpos
    unfold parse_quantity
    rw [h]
    show (if q ≤ 0 then none else some q) = some q
    rw [if_neg (not_le.mpr hpos)]
  have h4 : ∀ l : List Char, l ≠ [] → (∀ c ∈ l, pyIsDigit c = true) → 0 < litVal l →
      parse_quantity (String.mk l) = some ((litVal l : Nat) : Int) := by
    intro l hne hd hpos
    have hstrip : pyStrip (String.mk l) = String.mk l := by
      simp [pyStrip, stripL_of_digits hd]
    have hci : clean_int (String.mk l) = some ((litVal l : Nat) : Int) := by
      show pyIntOfList l = _
      exact pyIntOfList_digits hne hd
    rw [show parse_quantity (String.mk l) =
        (match clean_int (pyStrip (String.mk l)) with
         | some q => if q ≤ 0 then none else some q
         | none => none) from rfl, hstrip, hci]
    show (if ((litVal l : Nat) : Int) ≤ 0 then none else some ((litVal l : Nat) : Int)) =
      some ((litVal l : Nat) : Int)
    rw [if_neg (not_le.mpr (by exact_mod_cast hpos))]
  refine ⟨h1, h2, h3, h4, ?_⟩
  intro n hn
  obtain ⟨hd, hv, hne⟩ := natLit_spec n
  have hres := h4 (natLit n) hne hd (by rw [hv]; exact hn)
  rwa [hv] at hres

/-- Claim C6, witness: the theorem's clauses at concrete inputs — an
unparseable string, a non-positive literal, a positive literal with
surrounding whitespace, a plain digit literal, and the generated literal
of 12. -/
theorem C6_parse_quantity_witness :
    parse_quantity "abc" = none ∧
    parse_quantity " -3 " = none ∧
    parse_quantity " 7 " = some 7 ∧
    parse_quantity (String.mk ['3', '5', '8']) = some ((litVal ['3', '5', '8'] : Nat) : Int) ∧
    parse_quantity (String.mk (natLit 12)) = some ((12 : Nat) : Int) :=
  ⟨C6_parse_quantity.1 "abc" (by decide),
   C6_parse_quantity.2.1 " -3 " (-3) (by decide) (by decide),
   C6_parse_quantity.2.2.1 " 7 " 7 (by decide) (by decide),
   C6_parse_quantity.2.2.2.1 ['3', '5', '8'] (by decide) (by decide) (by decide),
   C6_parse_quantity.2.2.2.2 12 (by decide)⟩

/-! ### Claim C7 -/

/-- Claim C7 (confirmed): with a healthy sink, finalization writes
exactly one record per line item, in line-item order; every record is the
fixed 11-column row — order id, timestamp, requester handle, customer
name, phone, delivery method, delivery address, product name, unit price,
quantity, status — drawing the shared fields from the one draft, with
status always the literal `NEW`. -/
theorem C7_one_record_per_item (w : World) (cur : ConvState) (ud : UserData)
    (o : OrderDraft) (nm : String)
    (hws : w.wsErr = none) (hsink : ∀ j, w.sink j = none)
    (ho : ud.order = some o) (hnm : o.customer_name = some nm) :
    (saveAndFinish w cur ud).written = o.items.map (rowOf o nm) ∧
    (saveAndFinish w cur ud).replies = [okMsg o.order_id] ∧
    (saveAndFinish w cur ud).next = ConvState.END ∧
    (∀ i : ItemQ, rowOf o nm i =
      [Cell.str o.order_id, Cell.str o.timestamp_utc, Cell.str o.telegram_username,
       Cell.str nm, Cell.str (o.phone.getD ""), Cell.str (o.delivery_method.getD ""),
       Cell.str (o.delivery_address.getD ""), Cell.str i.name, Cell.int i.price,
       Cell.int i.quantity, Cell.str "NEW"]) := by
  have hs := runSinkAux_all_ok w.sink hsink (o.items.map (rowOf o nm)) 0
  refine ⟨?_, ?_, ?_, fun i => rfl⟩ <;> simp [saveAndFinish, ho, hws, hnm, hs]

/-- Claim C7, witness: the theorem at the concrete one-item draft. -/
theorem C7_one_record_per_item_witness :
    (saveAndFinish w0 ConvState.ASK_DELIVERY_METHOD ⟨some cexDraft, none⟩).written =
      cexDraft.items.map (rowOf cexDraft "X") ∧
    (saveAndFinish w0 ConvState.ASK_DELIVERY_METHOD ⟨some cexDraft, none⟩).replies =
      [okMsg cexDraft.order_id] ∧
    (saveAndFinish w0 ConvState.ASK_DELIVERY_METHOD ⟨some cexDraft, none⟩).next =
      ConvState.END ∧
    (∀ i : ItemQ, rowOf cexDraft "X" i =
      [Cell.str cexDraft.order_id, Cell.str cexDraft.timestamp_utc,
       Cell.str cexDraft.telegram_username, Cell.str "X",
       Cell.str (cexDraft.phone.getD ""), Cell.str (cexDraft.delivery_method.getD ""),
       Cell.str (cexDraft.delivery_address.getD ""), Cell.str i.name, Cell.int i.price,
       Cell.int i.quantity, Cell.str "NEW"]) :=
  C7_one_record_per_item w0 ConvState.ASK_DELIVERY_METHOD ⟨some cexDraft, none⟩ cexDraft
    "X" rfl (fun j => rfl) rfl rfl

/-! ### Claim C8 -/

/-- Claim C8, counterexample: cancelling at CONFIRM (and `/cancel`)
terminates the conversation with no sink call, but the draft object is
not discarded — it remains in `user_data` afterwards. -/
theorem C8_cancel_counterexample :
    (step w0 ConvState.CONFIRM (Event.msg "no") ⟨some cexDraft, none⟩).next =
      ConvState.END ∧
    (step w0 ConvState.CONFIRM (Event.msg "no") ⟨some cexDraft, none⟩).ud.order =
      some cexDraft ∧
    (step w0 ConvState.ASK_PHONE Event.cmdCancel ⟨some cexDraft, none⟩).ud.order =
      some cexDraft ∧
    some cexDraft ≠ (none : Option OrderDraft) := by
  decide

/-- Claim C8, amended: the global `/cancel` in any non-terminal state,
and replying no/n at CONFIRM, transition directly to the terminal state
with an acknowledgment reply and zero Order Sink calls; the session data
is left untouched, so the stale draft remains stored until the next
`/order` overwrites it. -/
theorem C8_cancel_terminates (w : World) (s : ConvState) (ud : UserData) (t : String)
    (hs : s ≠ ConvState.END)
    (hno : asciiLower (pyStrip t) = "no" ∨ asciiLower (pyStrip t) = "n") :
    step w s Event.cmdCancel ud =
      ⟨ud, ["Cancelled. You can start again with /order."], ConvState.END, []⟩ ∧
    step w ConvState.CONFIRM (Event.msg t) ud =
      ⟨ud, ["Order cancelled."], ConvState.END, []⟩ := by
  refine ⟨rfl, ?_⟩
  show finalize t ud = _
  rcases hno with h | h <;> simp [finalize, h]

/-- Claim C8, witness: the amended theorem at state ASK_PHONE and the
reply `no`. -/
theorem C8_cancel_terminates_witness :
    step w0 ConvState.ASK_PHONE Event.cmdCancel ⟨some cexDraft, none⟩ =
      ⟨⟨some cexDraft, none⟩, ["Cancelled. You can start again with /order."],
       ConvState.END, []⟩ ∧
    step w0 ConvState.CONFIRM (Event.msg "no") ⟨some cexDraft, none⟩ =
      ⟨⟨some cexDraft, none⟩, ["Order cancelled."], ConvState.END, []⟩ :=
  C8_cancel_terminates w0 ConvState.ASK_PHONE ⟨some cexDraft, none⟩ "no" (by decide)
    (Or.inl (by decide))

/-! ### Claim C9 -/

/-- Claim C9, counterexample: the whitespace-only input `"   "` is
accepted in ASK_NAME — the machine proceeds to ASK_PHONE — and the stored
`customer_name` is the empty string. -/
theorem C9_empty_name_counterexample :
    (step w0 ConvState.ASK_NAME (Event.msg "   ") ⟨some freshD, none⟩).next =
      ConvState.ASK_PHONE ∧
    (step w0 ConvState.ASK_NAME (Event.msg "   ") ⟨some freshD, none⟩).ud.order =
      some { freshD with customer_name := some "" } := by
  decide

/-- Claim C9, amended: ASK_NAME accepts every text input and stores the
trimmed text as `customer_name` exactly once for the draft; the stored
name is non-empty exactly when the input contains some non-whitespace
character — a whitespace-only input is accepted and stores the empty
string. -/
theorem C9_name_stored (w : World) (t : String) (ud : UserData) (o : OrderDraft)
    (ho : ud.order = some o) :
    step w ConvState.ASK_NAME (Event.msg t) ud =
      ⟨⟨some { o with customer_name := some (pyStrip t) }, ud.current_item⟩,
       ["Phone number? (e.g., +65 9123 4567)"], ConvState.ASK_PHONE, []⟩ ∧
    (pyStrip t ≠ "" ↔ ∃ c ∈ t.data, pyIsSpace c = false) := by
  constructor
  · show ask_phone t ud = _
    simp [ask_phone, ho]
  · constructor
    · intro hne
      by_contra hall
      push_neg at hall
      simp only [Bool.not_eq_false] at hall
      exact hne (by simp [pyStrip, (stripL_eq_nil_iff t.data).mpr hall])
    · rintro ⟨c, hc, hcf⟩ he
      have hnil : stripL t.data = [] := by
        have := congrArg String.data he
        simpa [pyStrip] using this
      rw [(stripL_eq_nil_iff t.data).mp hnil c hc] at hcf
      exact absurd hcf (by simp)

/-- Claim C9, witness: the amended theorem at the input `" Jane Doe "`. -/
theorem C9_name_stored_witness :
    step w0 ConvState.ASK_NAME (Event.msg " Jane Doe ") ⟨some freshD, none⟩ =
      ⟨⟨some { freshD with customer_name := some (pyStrip " Jane Doe ") }, none⟩,
       ["Phone number? (e.g., +65 9123 4567)"], ConvState.ASK_PHONE, []⟩ ∧
    (pyStrip " Jane Doe " ≠ "" ↔ ∃ c ∈ " Jane Doe ".data, pyIsSpace c = false) :=
  C9_name_stored w0 " Jane Doe " ⟨some freshD, none⟩ freshD rfl

/-! ### Claim C10 -/

/-- Claim C10 (confirmed): in ASK_QTY, a validly parsed positive quantity
arriving while no item is staged appends nothing — the session data is
returned unchanged — and the machine goes back to ASK_ITEM with a prompt
to choose a product instead of failing. -/
theorem C10_missing_staged_item (w : World) (t : String) (ud : UserData) (q : Int)
    (hq : clean_int (pyStrip t) = some q) (hpos : 0 < q)
    (hni : ud.current_item = none) :
    step w ConvState.ASK_QTY (Event.msg t) ud =
      ⟨ud, ["Please choose a perfume first."], ConvState.ASK_ITEM, []⟩ := by
  show confirm t ud = _
  simp [confirm, hq, hni, if_neg (not_le.mpr hpos)]

/-- Claim C10, witness: the theorem at the quantity text `2` with no
staged item. -/
theorem C10_missing_staged_item_witness :
    step w0 ConvState.ASK_QTY (Event.msg "2") ⟨some freshD, none⟩ =
      ⟨⟨some freshD, none⟩, ["Please choose a perfume first."], ConvState.ASK_ITEM, []⟩ :=
  C10_missing_staged_item w0 "2" ⟨some freshD, none⟩ 2 (by decide) (by decide) rfl

end Soma
